import Mathlib

set_option maxRecDepth 4000
set_option linter.unusedVariables false

/- Shallow embedding of the mcp-netops gateway core: inventory loading and
   RBAC filtering (services/inventory.py, models/inventory.py), the read-only
   command guard and execution pipeline (services/executor.py), the session
   pool and transport fail-over (services/session.py), the best-effort output
   parser (services/parser.py) and the audit recorder (services/audit.py). -/

namespace McpGateway

/- Python string helpers.  pySpace models the whitespace class used by
   str.strip and the regex class \s (ASCII range, which is all that occurs in
   CLI output). -/

def pySpace (c : Char) : Bool :=
  c = ' ' || c = '\t' || c = '\n' || c = '\r' || c = '\x0b' || c = '\x0c'

/- Python str.strip(): drop whitespace from both ends. -/
def pyStrip (l : List Char) : List Char :=
  ((l.dropWhile pySpace).reverse.dropWhile pySpace).reverse

/- Python str.lower(), per character. -/
def pyLower (l : List Char) : List Char := l.map Char.toLower

def strStrip (s : String) : String := String.mk (pyStrip s.data)

def strLower (s : String) : String := String.mk (pyLower s.data)

/- Word characters for the regex word boundary after a verb in
   executor._READ_ONLY_PATTERN. -/
def isWordChar (c : Char) : Bool := c.isAlpha || c.isDigit || c = '_'

/- Case-insensitive match of a (lower-case) keyword at the head of the input
   followed by a regex word boundary, as in re.match of
   r"^(show|ping|traceroute)\b" with re.IGNORECASE. -/
def matchKeywordCI : List Char → List Char → Bool
  | [], [] => true
  | [], c :: _ => ! isWordChar c
  | _ :: _, [] => false
  | v :: vs, c :: cs => (c.toLower == v) && matchKeywordCI vs cs

/- executor._READ_ONLY_PATTERN.match(command.strip()) as a Boolean. -/
def readOnlyMatch (command : String) : Bool :=
  matchKeywordCI "show".data (pyStrip command.data) ||
    matchKeywordCI "ping".data (pyStrip command.data) ||
      matchKeywordCI "traceroute".data (pyStrip command.data)

/- Association-list with Python dict insertion semantics: overwrite in place,
   otherwise append at the end. -/
def dictInsert {α : Type} : List (String × α) → String → α → List (String × α)
  | [], k, v => [(k, v)]
  | (k0, v0) :: rest, k, v =>
    if k0 = k then (k, v) :: rest else (k0, v0) :: dictInsert rest k v

/- Python truthy-or on an optional TCP port: None (and the impossible 0) fall
   back to the default, mirroring "self._dev.port or 22". -/
def pyOrNat (x : Option Nat) (d : Nat) : Nat :=
  match x with
  | none => d
  | some n => if n = 0 then d else n

namespace Models

/- models/auth.py User. -/
structure User where
  username : String
  roles : List String
  allowed_tags : List String
deriving Repr, DecidableEq

/- models/inventory.py Device: note that username and password are required
   str fields (not Optional) in the pydantic model. -/
structure Device where
  hostname : String
  host : String
  platform : String
  username : String
  password : String
  tags : List String
  port : Option Nat
deriving Repr, DecidableEq

/- models/inventory.py DevicePublic: the credential-free public view. -/
structure DevicePublic where
  hostname : String
  host : String
  platform : String
  tags : List String
deriving Repr, DecidableEq

/- Device._NETMIKO_MAP. -/
def NETMIKO_MAP : List (String × String) :=
  [("ios", "cisco_ios"), ("iosxe", "cisco_ios"), ("iosxr", "cisco_xr"),
   ("nxos", "cisco_nxos"), ("asa", "cisco_asa")]

/- Device.netmiko_driver: lookup of the lower-cased platform. -/
def netmiko_driver (platform : String) : Option String :=
  NETMIKO_MAP.lookup (strLower platform)

/- A raw inventory entry before pydantic validation: every field may be
   absent in the YAML mapping. -/
structure RawDevice where
  hostname : Option String
  host : Option String
  platform : Option String
  username : Option String
  password : Option String
  tags : Option (List String)
  port : Option Nat
deriving Repr, DecidableEq

/- Device.model_validate: the required fields hostname, host, platform,
   username and password must be present (pydantic str fields), the optional
   port must lie in 1..65535, and the platform must be a key of
   _NETMIKO_MAP (the check_platform model validator touches netmiko_driver,
   which raises ValueError on an unknown platform). -/
def model_validate (r : RawDevice) : Except String Device :=
  match r.hostname, r.host, r.platform, r.username, r.password with
  | some hn, some h, some p, some u, some pw =>
    if (match r.port with | none => true | some prt => 1 ≤ prt && prt ≤ 65535) then
      match netmiko_driver p with
      | some _ => .ok ⟨hn, h, p, u, pw, r.tags.getD [], r.port⟩
      | none => .error ("Unsupported platform: " ++ p)
    else .error "port out of range"
  | _, _, _, _, _ => .error "field required"

end Models

namespace Inventory

/- services/inventory.py: the module-level cache (_CACHE, _CACHE_MTIME). -/
structure InvState where
  cache : List (String × Models.Device)
  cacheMtime : Nat
deriving Repr, DecidableEq

/- The backing YAML file as the loader observes it: either stat fails
   (missing), safe_load raises, or it parses to a list of raw device
   entries. -/
inductive YamlContent
  | missing
  | syntaxError (msg : String)
  | parsed (devices : List Models.RawDevice)
deriving Repr, DecidableEq

structure FileState where
  mtime : Nat
  content : YamlContent
deriving Repr, DecidableEq

/- The validation loop of _load_yaml: validate entries in order, failing the
   whole reload on the first invalid entry, inserting the survivors into the
   hostname-keyed dict. -/
def buildInventoryGo (acc : List (String × Models.Device)) :
    List Models.RawDevice → Except String (List (String × Models.Device))
  | [] => .ok acc
  | r :: rs =>
    match Models.model_validate r with
    | .error e => .error ("Invalid device entry in inventory: " ++ e)
    | .ok d => buildInventoryGo (dictInsert acc d.hostname d) rs

/- services/inventory.py _load_yaml: stat (missing file errors), mtime
   freshness check against the cache, YAML parse, per-entry validation, and
   the cache swap that only happens after a fully successful reload. -/
def load_yaml (file : FileState) (st : InvState) :
    Except String (List (String × Models.Device) × InvState) :=
  match file.content with
  | .missing => .error "Inventory file missing"
  | .syntaxError msg =>
    if file.mtime ≤ st.cacheMtime ∧ st.cache ≠ [] then .ok (st.cache, st)
    else .error ("YAML syntax error in inventory: " ++ msg)
  | .parsed raws =>
    if file.mtime ≤ st.cacheMtime ∧ st.cache ≠ [] then .ok (st.cache, st)
    else
      match buildInventoryGo [] raws with
      | .error e => .error e
      | .ok table => .ok (table, ⟨table, file.mtime⟩)

/- services/inventory.py _is_authorised. -/
def is_authorised (device : Models.Device) (user : Models.User) : Bool :=
  if user.roles.contains "admin" then true
  else device.tags.any (fun t => user.allowed_tags.contains t)

/- services/inventory.py get_device: load (propagating load errors), then
   return the device only when present and visible; the absent and the
   unauthorised case produce the same none. -/
def get_device (file : FileState) (hostname : String) (for_user : Models.User)
    (st : InvState) : Except String (Option Models.Device × InvState) :=
  match load_yaml file st with
  | .error e => .error e
  | .ok (table, st') =>
    match table.lookup hostname with
    | none => .ok (none, st')
    | some dev =>
      .ok (if is_authorised dev for_user then some dev else none, st')

/- DevicePublic(**d.model_dump()) with extra fields ignored: only the four
   public fields survive. -/
def toPublic (d : Models.Device) : Models.DevicePublic :=
  ⟨d.hostname, d.host, d.platform, d.tags⟩

/- services/inventory.py list_devices. -/
def list_devices (file : FileState) (user : Models.User) (st : InvState) :
    Except String (List Models.DevicePublic × InvState) :=
  match load_yaml file st with
  | .error e => .error e
  | .ok (table, st') =>
    .ok (((table.map Prod.snd).filter (fun d => is_authorised d user)).map toPublic, st')

end Inventory

namespace Parser

/- Python str.splitlines restricted to the line breaks that occur in CLI
   output: "\r\n", "\n" and "\r"; no trailing empty line is produced for a
   trailing line break. -/
def splitlinesGo (l : List Char) (acc : List Char) : List (List Char) :=
  match l with
  | [] => if acc.isEmpty then [] else [acc.reverse]
  | '\r' :: '\n' :: rest => acc.reverse :: splitlinesGo rest []
  | '\n' :: rest => acc.reverse :: splitlinesGo rest []
  | '\r' :: rest => acc.reverse :: splitlinesGo rest []
  | c :: rest => splitlinesGo rest (c :: acc)

def splitlines (s : String) : List (List Char) := splitlinesGo s.data []

/- re.split(r"\s+", line, maxsplit) on one line: each maximal whitespace run
   is a delimiter, only the first maxsplit delimiters split, and a leading or
   trailing run contributes an empty piece, exactly as in Python. -/
def splitWsMax (l : List Char) (maxsplit : Nat) : List (List Char) :=
  match maxsplit with
  | 0 => [l]
  | m + 1 =>
    let tok := l.takeWhile (fun c => ! pySpace c)
    match l.dropWhile (fun c => ! pySpace c) with
    | [] => [tok]
    | _ :: rs => tok :: splitWsMax (rs.dropWhile pySpace) m

/- Case-insensitive literal matcher consuming the pattern from the head of
   the input (the pattern is given lower-case). -/
def dropLitCI : List Char → List Char → Option (List Char)
  | [], s => some s
  | _ :: _, [] => none
  | p :: ps, c :: cs => if c.toLower = p then dropLitCI ps cs else none

/- One-or-more literal spaces, " +" in the header regex. -/
def dropSpaceRun : List Char → Option (List Char)
  | ' ' :: rest => some (rest.dropWhile (fun c => c == ' '))
  | _ => none

/- parser._HEADER_RE.match(line): the anchored, case-insensitive header
   pattern Interface +IP-Address +OK\? +Method +Status +Protocol. -/
def headerMatch (l : List Char) : Bool :=
  (do
    let s ← dropLitCI "interface".data l
    let s ← dropSpaceRun s
    let s ← dropLitCI "ip-address".data s
    let s ← dropSpaceRun s
    let s ← dropLitCI "ok?".data s
    let s ← dropSpaceRun s
    let s ← dropLitCI "method".data s
    let s ← dropSpaceRun s
    let s ← dropLitCI "status".data s
    let s ← dropSpaceRun s
    let _ ← dropLitCI "protocol".data s
    pure ()).isSome

/- One row of the structured "show ip int brief" result. -/
structure IntBriefEntry where
  interface : String
  ip_address : String
  ok : String
  method : String
  status : String
  protocol : String
deriving Repr, DecidableEq

/- The parser returns a Python dict: either the bare empty dict (header not
   found) or a dict with the single interfaces key. -/
inductive ParseResult
  | emptyDict
  | interfaces (entries : List IntBriefEntry)
deriving Repr, DecidableEq

/- The loop body of _parse_show_ip_int_brief for one line after the header:
   skip blank lines, split with maxsplit=5, skip lines with fewer than six
   parts (more than six is impossible with maxsplit=5), otherwise build the
   entry from the six parts. -/
def lineEntry (line : List Char) : Option IntBriefEntry :=
  if (pyStrip line).isEmpty then none
  else
    match splitWsMax line 5 with
    | [iface, ip, okF, meth, stat, proto] =>
      some ⟨String.mk iface, String.mk ip, String.mk okF, String.mk meth,
            String.mk stat, String.mk proto⟩
    | _ => none

/- Index of the first header line, the next(...) over enumerate(lines) in
   the source; none models the StopIteration branch. -/
def findHeaderIdx : List (List Char) → Option Nat
  | [] => none
  | l :: rest =>
    if headerMatch l then some 0 else (findHeaderIdx rest).map (· + 1)

/- parser._parse_show_ip_int_brief: locate the first header line (returning
   the empty dict when there is none) and collect one entry per qualifying
   subsequent line. -/
def parse_show_ip_int_brief (raw : String) : ParseResult :=
  let lines := splitlines raw
  match findHeaderIdx lines with
  | none => .emptyDict
  | some hdr_idx => .interfaces ((lines.drop (hdr_idx + 1)).filterMap lineEntry)

/- The qualifying condition the claims speak about: a non-blank line that
   splits into at least six whitespace-delimited fields. -/
def qualifies (line : List Char) : Bool :=
  (! (pyStrip line).isEmpty) && decide (6 ≤ (splitWsMax line 5).length)

/- parser.maybe_parse: normalise the command and dispatch on the registered
   command beginnings; platform is accepted but unused by the single
   registered parser. -/
def maybe_parse (command raw platform : String) : Option ParseResult :=
  let c := pyLower (pyStrip command.data)
  if "show ip int brief".data.isPrefixOf c then some (parse_show_ip_int_brief raw)
  else none

end Parser

namespace Session

/- services/session.py works with duck-typed device attributes; its None
   checks on username and password are meaningful there, so the session-layer
   view of a device keeps the credentials optional. -/
structure SessionDevice where
  hostname : String
  host : String
  platform : String
  username : Option String
  password : Option String
  port : Option Nat
deriving Repr, DecidableEq

/- A validated inventory Device as _open sees it: credentials always
   present. -/
def toSessionDevice (d : Models.Device) : SessionDevice :=
  ⟨d.hostname, d.host, d.platform, some d.username, some d.password, d.port⟩

/- session._DRIVER_MAP: the Scrapli driver classes keyed by platform. -/
def DRIVER_MAP : List (String × String) :=
  [("ios", "IOSXEDriver"), ("iosxe", "IOSXEDriver"), ("nxos", "NXOSDriver"),
   ("iosxr", "IOSXRDriver")]

/- The _DRIVER_MAP.get(platform.lower()) lookup at the top of _open. -/
def scrapliDriver (platform : String) : Option String :=
  DRIVER_MAP.lookup (strLower platform)

inductive Transport
  | ssh
  | telnet
deriving Repr, DecidableEq

/- The authentication keyword selection of _open_with_kwargs: with both
   credentials absent Scrapli is told to bypass interactive authentication;
   otherwise username/password are passed (None coerced to the empty
   string). -/
inductive AuthMode
  | bypass
  | userPass (username password : String)
deriving Repr, DecidableEq

def noAuth (d : SessionDevice) : Bool := d.username.isNone && d.password.isNone

def authMode (d : SessionDevice) : AuthMode :=
  if noAuth d then .bypass
  else .userPass (d.username.getD "") (d.password.getD "")

/- The ordered list of (transport, port) attempts built by _open:
   credential-less devices try Telnet first and then SSH; devices with
   credentials try SSH first and add a Telnet attempt only for classic
   ios. -/
def attemptPlan (d : SessionDevice) : List (Transport × Nat) :=
  if noAuth d then
    [(.telnet, pyOrNat d.port 23), (.ssh, pyOrNat d.port 22)]
  else
    (.ssh, pyOrNat d.port 22) ::
      (if strLower d.platform = "ios" then [(.telnet, pyOrNat d.port 23)] else [])

/- Outcome of one _try_open call, as decided by the network: the driver
   opens, raises ScrapliAuthenticationFailed, raises ScrapliTimeout, or
   raises any other exception. -/
inductive AttemptOutcome
  | success
  | authFailed (msg : String)
  | timedOut (msg : String)
  | otherError (msg : String)
deriving Repr, DecidableEq

/- Result of _open: a connection (with the transport, port and auth mode it
   was opened with, and how many attempts were consumed), the unsupported
   platform RuntimeError raised before any attempt, the RuntimeError after
   exhausting all attempts, or an immediately re-raised unexpected error. -/
inductive OpenResult
  | opened (transport : Transport) (port : Nat) (auth : AuthMode) (attemptsMade : Nat)
  | unsupportedPlatform (msg : String)
  | allFailed (msg : String) (attemptsMade : Nat)
  | aborted (msg : String) (attemptsMade : Nat)
deriving Repr, DecidableEq

/- The attempt loop of _open: auth failures and timeouts advance to the next
   attempt remembering the last cause, any other error propagates at once,
   and an exhausted list raises naming the host and the last cause. -/
def tryAttemptsFrom (d : SessionDevice) (oracle : Transport → Nat → AttemptOutcome) :
    List (Transport × Nat) → Option String → Nat → OpenResult
  | [], last, n =>
    .allFailed ("Connection attempts failed on " ++ d.host ++ ": " ++ last.getD "None") n
  | (t, p) :: rest, last, n =>
    match oracle t p with
    | .success => .opened t p (authMode d) (n + 1)
    | .authFailed m => tryAttemptsFrom d oracle rest (some m) (n + 1)
    | .timedOut m => tryAttemptsFrom d oracle rest (some m) (n + 1)
    | .otherError m => .aborted m (n + 1)

/- _ConnectionContext._open, with the network behaviour abstracted as an
   oracle per (transport, port) attempt. -/
def openConn (d : SessionDevice) (oracle : Transport → Nat → AttemptOutcome) :
    OpenResult :=
  match scrapliDriver d.platform with
  | none => .unsupportedPlatform ("Unsupported platform for Scrapli: " ++ d.platform)
  | some _ => tryAttemptsFrom d oracle (attemptPlan d) none 0

/- The pool side of session.py: a ScrapliConn with an identity and a
   liveness flag. -/
structure Conn where
  id : Nat
  alive : Bool
deriving Repr, DecidableEq

/- The module state around _POOL, instrumented with a fresh-id supply, a
   counter of successful opens, a counter of entries into the open path
   (connection attempts, i.e. network I/O), and the ids closed by purge. -/
structure PoolState where
  pool : List (String × Conn)
  nextId : Nat
  opens : Nat
  openTries : Nat
  closed : List Nat
deriving Repr, DecidableEq

inductive AcquireResult
  | acquired (conn : Conn) (st : PoolState)
  | failed (msg : String) (st : PoolState)
deriving Repr, DecidableEq

/- The open-and-insert branch of __aenter__: _open either raises (pool left
   untouched) or yields a fresh connection stored under the key. -/
def openNew (key : String) (openErr : Nat → Option String) (st : PoolState) :
    AcquireResult :=
  match openErr st.nextId with
  | some msg => .failed msg { st with openTries := st.openTries + 1 }
  | none =>
    .acquired ⟨st.nextId, true⟩
      { st with
        pool := dictInsert st.pool key ⟨st.nextId, true⟩
        nextId := st.nextId + 1
        opens := st.opens + 1
        openTries := st.openTries + 1 }

/- _ConnectionContext.__aenter__ run without interleaving: read the pool
   entry, reuse it when alive, otherwise open and insert. -/
def acquire (key : String) (openErr : Nat → Option String) (st : PoolState) :
    AcquireResult :=
  match st.pool.lookup key with
  | some c => if c.alive then .acquired c st else openNew key openErr st
  | none => openNew key openErr st

/- _ConnectionContext._purge: close the held connection and pop the pool
   entry. -/
def purge (key : String) (conn : Conn) (st : PoolState) : PoolState :=
  { st with
    pool := st.pool.filter (fun p => p.1 != key)
    closed := conn.id :: st.closed }

end Session

namespace Race

/- Interleaving model of two concurrent __aenter__ calls for the same device
   key.  Each atomic region of the code is one step: the locked pool read
   (with the aliveness decision on the snapshot), the open performed outside
   the lock in the thread pool, the locked insert, and the direct reuse of an
   alive snapshot.  A step whose task is not at the matching program point
   leaves the state unchanged, so every state change along a schedule is a
   transition the code can really take. -/
inductive TaskPoint
  | start
  | readDone (seen : Option Session.Conn)
  | openedConn (c : Session.Conn)
  | finished (c : Session.Conn)
deriving Repr, DecidableEq

structure RaceState where
  pool : Option Session.Conn
  nextId : Nat
  live : List Nat
  t1 : TaskPoint
  t2 : TaskPoint
deriving Repr, DecidableEq

inductive RaceStep
  | readPool (second : Bool)
  | openStep (second : Bool)
  | insertStep (second : Bool)
  | reuseStep (second : Bool)
deriving Repr, DecidableEq

def getTask (s : RaceState) (second : Bool) : TaskPoint :=
  if second then s.t2 else s.t1

def setTask (s : RaceState) (second : Bool) (p : TaskPoint) : RaceState :=
  if second then { s with t2 := p } else { s with t1 := p }

/- Whether the snapshot a task read forces the open branch: the entry is
   missing or not alive. -/
def mustOpen : Option Session.Conn → Bool
  | none => true
  | some c => ! c.alive

def raceStep (s : RaceState) : RaceStep → RaceState
  | .readPool second =>
    match getTask s second with
    | .start => setTask s second (.readDone s.pool)
    | _ => s
  | .openStep second =>
    match getTask s second with
    | .readDone seen =>
      if mustOpen seen then
        setTask
          { s with nextId := s.nextId + 1, live := s.nextId :: s.live }
          second (.openedConn ⟨s.nextId, true⟩)
      else s
    | _ => s
  | .insertStep second =>
    match getTask s second with
    | .openedConn c => setTask { s with pool := some c } second (.finished c)
    | _ => s
  | .reuseStep second =>
    match getTask s second with
    | .readDone seen =>
      match seen with
      | some c => if c.alive then setTask s second (.finished c) else s
      | none => s
    | _ => s

def raceRun (s : RaceState) : List RaceStep → RaceState
  | [] => s
  | step :: rest => raceRun (raceStep s step) rest

/- Both tasks start against an empty pool. -/
def raceInit : RaceState := ⟨none, 0, [], .start, .start⟩

/- The schedule in which both tasks read the pool before either open
   completes. -/
def raceSchedule : List RaceStep :=
  [.readPool false, .readPool true, .openStep false, .openStep true,
   .insertStep false, .insertStep true]

end Race

namespace Audit

/- services/audit.py: the event dict (the timestamp is irrelevant to the
   claims and omitted). -/
structure AuditEvent where
  user : String
  device : String
  command : String
  raw_len : Nat
  has_json : Bool
deriving Repr, DecidableEq

/- The two sinks: the structured Loguru stream and the audit.log file (the
   durable sink). -/
structure AuditLog where
  emitted : List AuditEvent
  durable : List AuditEvent
deriving Repr, DecidableEq

/- audit.record: always emit to the structured logger; then try to append to
   the file, catching any write failure internally, so the function is total
   and never surfaces an error. -/
def record (sinkOk : Bool) (user device command raw_output : String)
    (parsed : Option Parser.ParseResult) (log : AuditLog) : AuditLog :=
  let event : AuditEvent := ⟨user, device, command, raw_output.length, parsed.isSome⟩
  if sinkOk then ⟨log.emitted ++ [event], log.durable ++ [event]⟩
  else ⟨log.emitted ++ [event], log.durable⟩

end Audit

namespace Executor

/- The executor exception taxonomy as the code defines it: the two classes of
   executor.py plus the InventoryLoadError that get_device lets escape.
   Command rejection re-uses CommandExecutionError; there is no separate
   rejection class. -/
inductive ExecError
  | inventoryLoadError (msg : String)
  | deviceNotFoundError (msg : String)
  | commandExecutionError (msg : String)
deriving Repr, DecidableEq

structure RunCommandResponse where
  stdout : String
  json : Option Parser.ParseResult
deriving Repr, DecidableEq

def REJECT_MSG : String :=
  "Only read-only show, ping, or traceroute commands are allowed in this PoC."

/- executor._validate_command. -/
def validate_command (command : String) : Except ExecError Unit :=
  if readOnlyMatch command then .ok () else .error (.commandExecutionError REJECT_MSG)

/- The effectful collaborators of one run_command call: the caller identity,
   the outcome of _open for a given fresh connection id, the outcome of
   send_command on a given connection id, and whether the audit file write
   succeeds. -/
structure Env where
  user : Models.User
  openErr : Nat → Option String
  execOut : Nat → String → Except String String
  sinkOk : Bool

/- executor.run_command: device lookup and RBAC, command guard, session
   acquisition, execution with purge-on-error, best-effort parse, audit,
   response. -/
def run_command (env : Env) (file : Inventory.FileState) (device command : String)
    (inv : Inventory.InvState) (st : Session.PoolState) (log : Audit.AuditLog) :
    Except ExecError RunCommandResponse × Inventory.InvState × Session.PoolState ×
      Audit.AuditLog :=
  match Inventory.get_device file device env.user inv with
  | .error e => (.error (.inventoryLoadError e), inv, st, log)
  | .ok (none, inv') =>
    (.error (.deviceNotFoundError ("Unknown or unauthorised device: " ++ device)),
      inv', st, log)
  | .ok (some dev, inv') =>
    match validate_command command with
    | .error e => (.error e, inv', st, log)
    | .ok _ =>
      match Session.acquire dev.hostname env.openErr st with
      | .failed msg st1 => (.error (.commandExecutionError msg), inv', st1, log)
      | .acquired conn st1 =>
        match env.execOut conn.id command with
        | .error msg =>
          (.error (.commandExecutionError msg), inv',
            Session.purge dev.hostname conn st1, log)
        | .ok raw =>
          let parsed := Parser.maybe_parse command raw dev.platform
          let log1 := Audit.record env.sinkOk env.user.username device command raw
            parsed log
          (.ok ⟨raw, parsed⟩, inv', st1, log1)

end Executor

namespace Fixtures

/- Concrete data used by the witnesses and counterexamples. -/

def userLab : Models.User := ⟨"alice", [], ["lab"]⟩

def rawR1 : Models.RawDevice :=
  ⟨some "r1", some "10.0.0.1", some "iosxe", some "netops", some "secret",
   some ["lab"], none⟩

def devR1 : Models.Device :=
  ⟨"r1", "10.0.0.1", "iosxe", "netops", "secret", ["lab"], none⟩

def fileGood : Inventory.FileState := ⟨1, .parsed [rawR1]⟩

def invEmpty : Inventory.InvState := ⟨[], 0⟩

def invLoaded : Inventory.InvState := ⟨[("r1", devR1)], 1⟩

def st0 : Session.PoolState := ⟨[], 0, 0, 0, []⟩

def log0 : Audit.AuditLog := ⟨[], []⟩

/- A device entry with both credentials absent, as the spec says the data
   model should admit. -/
def rawNoCreds : Models.RawDevice :=
  ⟨some "c1", some "10.0.0.9", some "ios", none, none, some ["lab"], none⟩

/- A malformed entry: the platform junos is not in the netmiko map. -/
def rawBad : Models.RawDevice :=
  ⟨some "r2", some "10.0.0.2", some "junos", some "u", some "p", none, none⟩

/- The inventory file after an edit that introduced the malformed entry. -/
def fileBad : Inventory.FileState := ⟨2, .parsed [rawR1, rawBad]⟩

/- An asa firewall entry: accepted by inventory validation. -/
def rawAsa : Models.RawDevice :=
  ⟨some "fw1", some "10.0.0.5", some "asa", some "u", some "p", none, none⟩

def envReject : Executor.Env :=
  ⟨userLab, fun _ => none, fun _ _ => .ok "out", true⟩

def envExecFail : Executor.Env :=
  ⟨userLab, fun _ => none, fun _ _ => .error "transport failure", true⟩

def envOk : Executor.Env :=
  ⟨userLab, fun _ => none, fun _ _ => .ok "all up", true⟩

/- The pool state after the first acquisition for r1 against the empty
   pool. -/
def st1c : Session.PoolState := ⟨[("r1", ⟨0, true⟩)], 1, 1, 1, []⟩

/- A classic ios router with credentials, as the session layer sees it. -/
def dIos : Session.SessionDevice := ⟨"r3", "10.0.0.3", "ios", some "u", some "p", none⟩

/- A network where SSH times out and Telnet accepts. -/
def oracleSshDown : Session.Transport → Nat → Session.AttemptOutcome :=
  fun t _ =>
    match t with
    | .ssh => .timedOut "ssh timed out"
    | .telnet => .success

end Fixtures

/- Helper lemmas shared by several claims. -/

theorem dictInsert_lookup {α : Type} (l : List (String × α)) (k : String) (v : α) :
    (dictInsert l k v).lookup k = some v := by
  induction l with
  | nil => simp [dictInsert, List.lookup]
  | cons p rest ih =>
    obtain ⟨k0, v0⟩ := p
    by_cases h : k0 = k
    · simp [dictInsert, h, List.lookup]
    · have hk : (k == k0) = false := by simp [Ne.symm h]
      simp [dictInsert, h, List.lookup, hk, ih]

theorem lookup_filter_ne {α : Type} (l : List (String × α)) (k : String) :
    (l.filter (fun p => p.1 != k)).lookup k = none := by
  induction l with
  | nil => simp
  | cons p rest ih =>
    obtain ⟨k0, v0⟩ := p
    by_cases h : k0 = k
    · have hk : (k0 != k) = false := by simp [h]
      simpa [List.filter, hk] using ih
    · have h1 : (k0 != k) = true := by simp [h]
      have h2 : (k == k0) = false := by simp [Ne.symm h]
      simp [List.filter, h1, List.lookup, h2, ih]

theorem openNew_acquired {key : String} {oe : Nat → Option String}
    {st st' : Session.PoolState} {conn : Session.Conn}
    (h : Session.openNew key oe st = .acquired conn st') :
    conn = ⟨st.nextId, true⟩
      ∧ st'.pool = dictInsert st.pool key ⟨st.nextId, true⟩
      ∧ st'.opens = st.opens + 1 := by
  unfold Session.openNew at h
  cases hoe : oe st.nextId with
  | some m => rw [hoe] at h; exact absurd h (by simp)
  | none =>
    rw [hoe] at h
    cases h
    exact ⟨rfl, rfl, rfl⟩

theorem acquire_lookup {key : String} {oe : Nat → Option String}
    {st st' : Session.PoolState} {conn : Session.Conn}
    (h : Session.acquire key oe st = .acquired conn st') :
    st'.pool.lookup key = some conn := by
  unfold Session.acquire at h
  cases hl : st.pool.lookup key with
  | none =>
    rw [hl] at h
    obtain ⟨hc, hp, _⟩ := openNew_acquired h
    rw [hp, hc]
    exact dictInsert_lookup ..
  | some c =>
    rw [hl] at h
    by_cases hc : c.alive
    · simp only [hc, if_true] at h
      cases h
      exact hl
    · simp only [hc, if_false] at h
      obtain ⟨hcn, hp, _⟩ := openNew_acquired h
      rw [hp, hcn]
      exact dictInsert_lookup ..

theorem acquire_alive {key : String} {oe : Nat → Option String}
    {st st' : Session.PoolState} {conn : Session.Conn}
    (h : Session.acquire key oe st = .acquired conn st') :
    conn.alive = true := by
  unfold Session.acquire at h
  cases hl : st.pool.lookup key with
  | none =>
    rw [hl] at h
    obtain ⟨hc, _, _⟩ := openNew_acquired h
    rw [hc]
  | some c =>
    rw [hl] at h
    by_cases hc : c.alive
    · simp only [hc, if_true] at h
      cases h
      exact hc
    · simp only [hc, if_false] at h
      obtain ⟨hcn, _, _⟩ := openNew_acquired h
      rw [hcn]

/- Claim C1. -/

/-- C1 (amended): for every command string that, after trimming, does not
begin case-insensitively with show, ping or traceroute, run_command on an
authorized device fails before any session acquisition or network I/O — the
pool state (including its connection-attempt counter) and the audit log are
returned unchanged — with the typed failure CommandExecutionError, which is
distinct from DeviceNotFoundError but is the same exception class that
execution failures raise (the code has no separate CommandRejected type). -/
theorem C1_reject_before_acquire
    (env : Executor.Env) (file : Inventory.FileState) (device command : String)
    (inv inv' : Inventory.InvState) (st : Session.PoolState) (log : Audit.AuditLog)
    (dev : Models.Device)
    (hdev : Inventory.get_device file device env.user inv = .ok (some dev, inv'))
    (hbad : readOnlyMatch command = false) :
    Executor.run_command env file device command inv st log
      = (.error (.commandExecutionError Executor.REJECT_MSG), inv', st, log) := by
  simp [Executor.run_command, hdev, Executor.validate_command, hbad]

/-- Witness for C1_reject_before_acquire at a concrete rejected command. -/
theorem C1_reject_before_acquire_witness :
    Inventory.get_device Fixtures.fileGood "r1" Fixtures.envReject.user Fixtures.invEmpty
        = .ok (some Fixtures.devR1, Fixtures.invLoaded)
    ∧ readOnlyMatch "reload in 5" = false
    ∧ Executor.run_command Fixtures.envReject Fixtures.fileGood "r1" "reload in 5"
        Fixtures.invEmpty Fixtures.st0 Fixtures.log0
      = (.error (.commandExecutionError Executor.REJECT_MSG), Fixtures.invLoaded,
          Fixtures.st0, Fixtures.log0) :=
  ⟨rfl, rfl,
    C1_reject_before_acquire Fixtures.envReject Fixtures.fileGood "r1" "reload in 5"
      Fixtures.invEmpty Fixtures.invLoaded Fixtures.st0 Fixtures.log0 Fixtures.devR1
      rfl rfl⟩

/-- Counterexample to C1 as stated: the claim calls CommandRejected a typed
failure distinct from ExecutionFailed, but the code raises the same
CommandExecutionError class for a rejected command and for a failed
execution; both runs below surface the identical error constructor. -/
theorem C1_counterexample :
    (Executor.run_command Fixtures.envReject Fixtures.fileGood "r1" "reload in 5"
        Fixtures.invEmpty Fixtures.st0 Fixtures.log0).1
      = .error (.commandExecutionError Executor.REJECT_MSG)
    ∧ (Executor.run_command Fixtures.envExecFail Fixtures.fileGood "r1" "show version"
        Fixtures.invEmpty Fixtures.st0 Fixtures.log0).1
      = .error (.commandExecutionError "transport failure") :=
  ⟨rfl, rfl⟩

/- Claim C2. -/

theorem is_authorised_iff (d : Models.Device) (u : Models.User) :
    Inventory.is_authorised d u = true ↔
      "admin" ∈ u.roles ∨ ∃ t, t ∈ d.tags ∧ t ∈ u.allowed_tags := by
  unfold Inventory.is_authorised
  by_cases ha : "admin" ∈ u.roles
  · simp [List.elem_iff.mpr ha, ha]
  · have hb : u.roles.contains "admin" = false := by
      rw [← Bool.not_eq_true]
      exact fun hc => ha (List.elem_iff.mp hc)
    simp [hb, ha, List.any_eq_true, List.elem_iff]

theorem get_device_of_load {file : Inventory.FileState} {inv inv' : Inventory.InvState}
    {table : List (String × Models.Device)} (u : Models.User) (hn : String)
    (hload : Inventory.load_yaml file inv = .ok (table, inv')) :
    Inventory.get_device file hn u inv
      = .ok ((table.lookup hn).bind
          (fun d => if Inventory.is_authorised d u then some d else none), inv') := by
  have h1 : Inventory.get_device file hn u inv
      = match table.lookup hn with
        | none => Except.ok (none, inv')
        | some dev =>
          Except.ok (if Inventory.is_authorised dev u then some dev else none, inv') := by
    unfold Inventory.get_device
    rw [hload]
  rw [h1]
  cases hl : table.lookup hn with
  | none => rfl
  | some d => rfl

theorem list_devices_of_load {file : Inventory.FileState} {inv inv' : Inventory.InvState}
    {table : List (String × Models.Device)} (u : Models.User)
    (hload : Inventory.load_yaml file inv = .ok (table, inv')) :
    Inventory.list_devices file u inv
      = .ok ((((table.map Prod.snd).filter (fun d => Inventory.is_authorised d u)).map
          Inventory.toPublic), inv') := by
  unfold Inventory.list_devices
  rw [hload]

/-- C2: given any successfully loaded inventory table, a device is returned
by get_device and included in list_devices iff the caller has the admin role
or shares a tag with it; the absent-hostname and the present-but-unauthorized
cases produce the identical none result; and list_devices yields DevicePublic
records, which carry no username or password field — their content is fully
determined by hostname, host, platform and tags. -/
theorem C2_visibility
    (file : Inventory.FileState) (inv inv' : Inventory.InvState)
    (table : List (String × Models.Device)) (u : Models.User) (hn : String)
    (hload : Inventory.load_yaml file inv = .ok (table, inv')) :
    Inventory.get_device file hn u inv
        = .ok ((table.lookup hn).bind
            (fun d => if Inventory.is_authorised d u then some d else none), inv')
    ∧ (table.lookup hn = none →
        Inventory.get_device file hn u inv = .ok (none, inv'))
    ∧ (∀ d, table.lookup hn = some d → Inventory.is_authorised d u = false →
        Inventory.get_device file hn u inv = .ok (none, inv'))
    ∧ Inventory.list_devices file u inv
        = .ok ((((table.map Prod.snd).filter (fun d => Inventory.is_authorised d u)).map
            Inventory.toPublic), inv')
    ∧ (∀ d : Models.Device, Inventory.is_authorised d u = true ↔
        "admin" ∈ u.roles ∨ ∃ t, t ∈ d.tags ∧ t ∈ u.allowed_tags)
    ∧ (∀ d d' : Models.Device, d.hostname = d'.hostname → d.host = d'.host →
        d.platform = d'.platform → d.tags = d'.tags →
        Inventory.toPublic d = Inventory.toPublic d') := by
  refine ⟨get_device_of_load u hn hload, ?_, ?_, list_devices_of_load u hload,
    fun d => is_authorised_iff d u, ?_⟩
  · intro hl
    rw [get_device_of_load u hn hload, hl]
    rfl
  · intro d hl hu
    rw [get_device_of_load u hn hload, hl]
    simp [hu]
  · intro d d' h1 h2 h3 h4
    unfold Inventory.toPublic
    rw [h1, h2, h3, h4]

/-- Witness for C2_visibility on a concrete load. -/
theorem C2_visibility_witness :
    Inventory.load_yaml Fixtures.fileGood Fixtures.invEmpty
        = .ok ([("r1", Fixtures.devR1)], Fixtures.invLoaded)
    ∧ Inventory.get_device Fixtures.fileGood "r1" Fixtures.userLab Fixtures.invEmpty
        = .ok (((([("r1", Fixtures.devR1)] : List (String × Models.Device)).lookup "r1").bind
            (fun d => if Inventory.is_authorised d Fixtures.userLab then some d else none)),
            Fixtures.invLoaded) :=
  ⟨rfl,
    (C2_visibility Fixtures.fileGood Fixtures.invEmpty Fixtures.invLoaded
      [("r1", Fixtures.devR1)] Fixtures.userLab "r1" rfl).1⟩

/- Claim C3. -/

/-- C3 (code defect): the pool lock only guards the map read and the map
insert of __aenter__, not the open itself, so two concurrent run_command
calls for the same device can both observe the empty pool and both open a
connection.  In the interleaving model, after the schedule read-read-open-
open-insert-insert both tasks finished with distinct connections (ids 0 and
1), two connections to the device are simultaneously open, and the pool
retains only the second — refuting the at-most-one-open-connection claim
(the spec itself flags this source behaviour as a defect). -/
theorem C3_duplicate_connections_race :
    (Race.raceRun Race.raceInit
        [.readPool false, .readPool true, .openStep false, .openStep true]).live.length = 2
    ∧ (Race.raceRun Race.raceInit Race.raceSchedule).live = [1, 0]
    ∧ (Race.raceRun Race.raceInit Race.raceSchedule).pool = some ⟨1, true⟩
    ∧ (Race.raceRun Race.raceInit Race.raceSchedule).t1 = .finished ⟨0, true⟩
    ∧ (Race.raceRun Race.raceInit Race.raceSchedule).t2 = .finished ⟨1, true⟩ := by
  exact ⟨rfl, rfl, rfl, rfl, rfl⟩

/- Claim C4. -/

theorem run_command_exec_error
    (env : Executor.Env) (file : Inventory.FileState) (device command : String)
    (inv inv' : Inventory.InvState) (st st1 : Session.PoolState)
    (log : Audit.AuditLog) (dev : Models.Device) (conn : Session.Conn) (msg : String)
    (hdev : Inventory.get_device file device env.user inv = .ok (some dev, inv'))
    (hok : readOnlyMatch command = true)
    (hacq : Session.acquire dev.hostname env.openErr st = .acquired conn st1)
    (hexec : env.execOut conn.id command = .error msg) :
    Executor.run_command env file device command inv st log
      = (.error (.commandExecutionError msg), inv',
          Session.purge dev.hostname conn st1, log) := by
  simp [Executor.run_command, hdev, Executor.validate_command, hok, hacq, hexec]

theorem run_command_exec_ok
    (env : Executor.Env) (file : Inventory.FileState) (device command : String)
    (inv inv' : Inventory.InvState) (st st1 : Session.PoolState)
    (log : Audit.AuditLog) (dev : Models.Device) (conn : Session.Conn) (raw : String)
    (hdev : Inventory.get_device file device env.user inv = .ok (some dev, inv'))
    (hok : readOnlyMatch command = true)
    (hacq : Session.acquire dev.hostname env.openErr st = .acquired conn st1)
    (hexec : env.execOut conn.id command = .ok raw) :
    Executor.run_command env file device command inv st log
      = (.ok ⟨raw, Parser.maybe_parse command raw dev.platform⟩, inv', st1,
          Audit.record env.sinkOk env.user.username device command raw
            (Parser.maybe_parse command raw dev.platform) log) := by
  simp [Executor.run_command, hdev, Executor.validate_command, hok, hacq, hexec]

/-- C4: for every acquired session, a failed execution purges it — the pool
entry is removed and the connection closed in the very result that carries
the propagating error — so a failed session is never handed to a later
caller; a successful execution leaves the session pooled, and a second
acquisition returns the identical connection handle with the pool state
(including the open counter) unchanged, while after a failed first call the
pool entry is gone and the next acquisition must perform a fresh open
(open counter incremented, handle freshly numbered). -/
theorem C4_purge_on_error_and_reuse
    (env : Executor.Env) (file : Inventory.FileState) (device command : String)
    (inv inv' : Inventory.InvState) (st st1 : Session.PoolState)
    (log : Audit.AuditLog) (dev : Models.Device) (conn : Session.Conn)
    (hdev : Inventory.get_device file device env.user inv = .ok (some dev, inv'))
    (hok : readOnlyMatch command = true)
    (hacq : Session.acquire dev.hostname env.openErr st = .acquired conn st1) :
    (∀ msg, env.execOut conn.id command = .error msg →
      Executor.run_command env file device command inv st log
          = (.error (.commandExecutionError msg), inv',
              Session.purge dev.hostname conn st1, log)
        ∧ (Session.purge dev.hostname conn st1).pool.lookup dev.hostname = none
        ∧ conn.id ∈ (Session.purge dev.hostname conn st1).closed)
    ∧ (∀ raw, env.execOut conn.id command = .ok raw →
        (Executor.run_command env file device command inv st log).2.2.1 = st1
          ∧ st1.pool.lookup dev.hostname = some conn
          ∧ Session.acquire dev.hostname env.openErr st1 = .acquired conn st1)
    ∧ (∀ msg, env.execOut conn.id command = .error msg →
        env.openErr (Session.purge dev.hostname conn st1).nextId = none →
        ∃ conn2 st3,
          Session.acquire dev.hostname env.openErr (Session.purge dev.hostname conn st1)
              = .acquired conn2 st3
            ∧ conn2.id = (Session.purge dev.hostname conn st1).nextId
            ∧ st3.opens = (Session.purge dev.hostname conn st1).opens + 1) := by
  refine ⟨?_, ?_, ?_⟩
  · intro msg hexec
    refine ⟨run_command_exec_error env file device command inv inv' st st1 log dev
        conn msg hdev hok hacq hexec, ?_, ?_⟩
    · simpa [Session.purge] using lookup_filter_ne st1.pool dev.hostname
    · simp [Session.purge]
  · intro raw hexec
    have hpooled := acquire_lookup hacq
    refine ⟨?_, hpooled, ?_⟩
    · rw [run_command_exec_ok env file device command inv inv' st st1 log dev
        conn raw hdev hok hacq hexec]
    · unfold Session.acquire
      rw [hpooled]
      simp [acquire_alive hacq]
  · intro msg hexec hopen
    have hlp : (Session.purge dev.hostname conn st1).pool.lookup dev.hostname = none := by
      simpa [Session.purge] using lookup_filter_ne st1.pool dev.hostname
    refine ⟨⟨(Session.purge dev.hostname conn st1).nextId, true⟩,
      { Session.purge dev.hostname conn st1 with
        pool := dictInsert (Session.purge dev.hostname conn st1).pool dev.hostname
            ⟨(Session.purge dev.hostname conn st1).nextId, true⟩
        nextId := (Session.purge dev.hostname conn st1).nextId + 1
        opens := (Session.purge dev.hostname conn st1).opens + 1
        openTries := (Session.purge dev.hostname conn st1).openTries + 1 }, ?_, rfl, rfl⟩
    unfold Session.acquire
    rw [hlp]
    unfold Session.openNew
    rw [hopen]

/-- Witness for C4_purge_on_error_and_reuse: the first acquisition against
the empty pool opens connection 0, and after a successful execution the
second acquisition returns the same handle with the pool state unchanged. -/
theorem C4_purge_on_error_and_reuse_witness :
    Inventory.get_device Fixtures.fileGood "r1" Fixtures.envOk.user Fixtures.invEmpty
        = .ok (some Fixtures.devR1, Fixtures.invLoaded)
    ∧ readOnlyMatch "show version" = true
    ∧ Session.acquire "r1" Fixtures.envOk.openErr Fixtures.st0
        = .acquired ⟨0, true⟩ Fixtures.st1c
    ∧ Session.acquire "r1" Fixtures.envOk.openErr Fixtures.st1c
        = .acquired ⟨0, true⟩ Fixtures.st1c :=
  ⟨rfl, rfl, rfl,
    ((C4_purge_on_error_and_reuse Fixtures.envOk Fixtures.fileGood "r1" "show version"
        Fixtures.invEmpty Fixtures.invLoaded Fixtures.st0 Fixtures.st1c Fixtures.log0
        Fixtures.devR1 ⟨0, true⟩ rfl rfl rfl).2.1 "all up" rfl).2.2⟩

/- Claim C5. -/

/-- C5: for a device with credentials configured (and a supported platform,
without which no attempt is made at all), _open attempts SSH first on the
configured port or default 22; a Telnet attempt on the configured port or
default 23 exists, and comes after SSH, exactly when the lower-cased
platform is ios; an authentication failure or timeout advances to the next
attempt while any other error aborts immediately; and when every attempt has
failed the result is the connection error naming the device host and the
last underlying cause. -/
theorem C5_transport_policy
    (d : Session.SessionDevice) (oracle : Session.Transport → Nat → Session.AttemptOutcome)
    (drv : String)
    (hcred : Session.noAuth d = false)
    (hsup : Session.scrapliDriver d.platform = some drv) :
    (Session.attemptPlan d).head? = some (.ssh, pyOrNat d.port 22)
    ∧ ((Session.Transport.telnet, pyOrNat d.port 23) ∈ Session.attemptPlan d
        ↔ strLower d.platform = "ios")
    ∧ (∀ t p, (t, p) ∈ Session.attemptPlan d →
        (t = .ssh ∧ p = pyOrNat d.port 22) ∨ (t = .telnet ∧ p = pyOrNat d.port 23))
    ∧ (oracle .ssh (pyOrNat d.port 22) = .success →
        Session.openConn d oracle
          = .opened .ssh (pyOrNat d.port 22) (Session.authMode d) 1)
    ∧ (∀ m, oracle .ssh (pyOrNat d.port 22) = .otherError m →
        Session.openConn d oracle = .aborted m 1)
    ∧ (∀ m, (oracle .ssh (pyOrNat d.port 22) = .authFailed m ∨
             oracle .ssh (pyOrNat d.port 22) = .timedOut m) →
        strLower d.platform ≠ "ios" →
        Session.openConn d oracle
          = .allFailed ("Connection attempts failed on " ++ d.host ++ ": " ++ m) 1)
    ∧ (∀ m, (oracle .ssh (pyOrNat d.port 22) = .authFailed m ∨
             oracle .ssh (pyOrNat d.port 22) = .timedOut m) →
        strLower d.platform = "ios" →
        (oracle .telnet (pyOrNat d.port 23) = .success →
          Session.openConn d oracle
            = .opened .telnet (pyOrNat d.port 23) (Session.authMode d) 2)
        ∧ (∀ m2, (oracle .telnet (pyOrNat d.port 23) = .authFailed m2 ∨
                  oracle .telnet (pyOrNat d.port 23) = .timedOut m2) →
            Session.openConn d oracle
              = .allFailed ("Connection attempts failed on " ++ d.host ++ ": " ++ m2) 2)
        ∧ (∀ m2, oracle .telnet (pyOrNat d.port 23) = .otherError m2 →
            Session.openConn d oracle = .aborted m2 2)) := by
  have hplan : Session.attemptPlan d
      = (Session.Transport.ssh, pyOrNat d.port 22) ::
          (if strLower d.platform = "ios"
           then [(Session.Transport.telnet, pyOrNat d.port 23)] else []) := by
    simp [Session.attemptPlan, hcred]
  have hopen : Session.openConn d oracle
      = Session.tryAttemptsFrom d oracle (Session.attemptPlan d) none 0 := by
    simp [Session.openConn, hsup]
  refine ⟨?_, ?_, ?_, ?_, ?_, ?_, ?_⟩
  · rw [hplan]
    rfl
  · rw [hplan]
    by_cases hios : strLower d.platform = "ios" <;> simp [hios]
  · intro t p hm
    rw [hplan] at hm
    by_cases hios : strLower d.platform = "ios" <;> simp [hios] at hm <;>
      rcases hm with ⟨h1, h2⟩ | ⟨h1, h2⟩ | h <;> simp_all
  · intro hssh
    rw [hopen, hplan]
    simp [Session.tryAttemptsFrom, hssh]
  · intro m hssh
    rw [hopen, hplan]
    simp [Session.tryAttemptsFrom, hssh]
  · intro m hssh hios
    rw [hopen, hplan]
    simp only [hios, if_false]
    rcases hssh with h | h <;> simp [Session.tryAttemptsFrom, h, Option.getD]
  · intro m hssh hios
    rw [hios] at hplan
    refine ⟨?_, ?_, ?_⟩
    · intro htel
      rw [hopen, hplan]
      rcases hssh with h | h <;> simp [Session.tryAttemptsFrom, h, htel]
    · intro m2 htel
      rw [hopen, hplan]
      rcases hssh with h | h <;> rcases htel with h2 | h2 <;>
        simp [Session.tryAttemptsFrom, h, h2, Option.getD]
    · intro m2 htel
      rw [hopen, hplan]
      rcases hssh with h | h <;> simp [Session.tryAttemptsFrom, h, htel]

/-- Witness for C5_transport_policy: an ios device with credentials whose
SSH attempt times out falls back to Telnet on port 23 and connects on the
second attempt with username/password authentication. -/
theorem C5_transport_policy_witness :
    Session.noAuth Fixtures.dIos = false
    ∧ Session.scrapliDriver Fixtures.dIos.platform = some "IOSXEDriver"
    ∧ Session.openConn Fixtures.dIos Fixtures.oracleSshDown
        = .opened .telnet 23 (.userPass "u" "p") 2 :=
  ⟨rfl, rfl,
    ((C5_transport_policy Fixtures.dIos Fixtures.oracleSshDown "IOSXEDriver"
        rfl rfl).2.2.2.2.2.2 "ssh timed out" (Or.inr rfl) rfl).1 rfl⟩

/- Claim C6. -/

/-- C6 (code defect): the pydantic Device model declares username and
password as required str fields, so a record with either credential absent
fails validation and the data model does not admit credential-less devices —
every validated device maps to a session-layer view with both credentials
present, making _open's no-credentials branch unreachable from inventory;
yet that branch (which the session module's own docstring describes for
blank inventory credentials, and which the spec mandates) would attempt
Telnet first on the configured port or 23, then SSH on the configured port
or 22, with interactive authentication bypassed. -/
theorem C6_credentialless_devices
    (r : Models.RawDevice)
    (hr : r.username = none ∨ r.password = none) :
    (∀ dv, Models.model_validate r ≠ .ok dv)
    ∧ Models.model_validate Fixtures.rawNoCreds = .error "field required"
    ∧ (∀ d : Models.Device, Session.noAuth (Session.toSessionDevice d) = false)
    ∧ (∀ sd : Session.SessionDevice, Session.noAuth sd = true →
        Session.attemptPlan sd
            = [(.telnet, pyOrNat sd.port 23), (.ssh, pyOrNat sd.port 22)]
          ∧ Session.authMode sd = .bypass
          ∧ (∀ (oracle : Session.Transport → Nat → Session.AttemptOutcome) (drv : String),
              Session.scrapliDriver sd.platform = some drv →
              oracle Session.Transport.telnet (pyOrNat sd.port 23)
                  = Session.AttemptOutcome.success →
              Session.openConn sd oracle
                = .opened .telnet (pyOrNat sd.port 23) .bypass 1)) := by
  refine ⟨?_, rfl, fun d => rfl, ?_⟩
  · obtain ⟨hn, ho, hp, hu, hpw, tg, pt⟩ := r
    intro dv hcon
    rcases hr with h | h <;> simp only at h <;> subst h <;>
      cases hn <;> cases ho <;> cases hp <;> first
        | (cases hpw <;> simp [Models.model_validate] at hcon)
        | (cases hu <;> simp [Models.model_validate] at hcon)
  · intro sd hno
    refine ⟨by simp [Session.attemptPlan, hno], by simp [Session.authMode, hno], ?_⟩
    intro oracle drv hsup htel
    simp [Session.openConn, hsup, Session.attemptPlan, hno,
      Session.tryAttemptsFrom, htel, Session.authMode]

/-- Witness for C6_credentialless_devices at the concrete credential-less
inventory record. -/
theorem C6_credentialless_devices_witness :
    (Fixtures.rawNoCreds.username = none ∨ Fixtures.rawNoCreds.password = none)
    ∧ (∀ dv, Models.model_validate Fixtures.rawNoCreds ≠ .ok dv) :=
  ⟨Or.inl rfl, (C6_credentialless_devices Fixtures.rawNoCreds (Or.inl rfl)).1⟩

/- Claim C7. -/

/-- Counterexample to C7 as stated: a run_command that ends in
ExecutionFailed emits no audit event at all — the audit log (both the
structured stream and the durable sink) is left empty, not holding exactly
one event — because executor.run_command re-raises before ever reaching the
audit step. -/
theorem C7_counterexample :
    (Executor.run_command Fixtures.envExecFail Fixtures.fileGood "r1" "show clock"
        Fixtures.invEmpty Fixtures.st0 Fixtures.log0).1
      = .error (.commandExecutionError "transport failure")
    ∧ (Executor.run_command Fixtures.envExecFail Fixtures.fileGood "r1" "show clock"
        Fixtures.invEmpty Fixtures.st0 Fixtures.log0).2.2.2.durable = []
    ∧ (Executor.run_command Fixtures.envExecFail Fixtures.fileGood "r1" "show clock"
        Fixtures.invEmpty Fixtures.st0 Fixtures.log0).2.2.2.emitted = [] :=
  ⟨rfl, rfl, rfl⟩

/-- C7 (amended): after a run_command that succeeds, exactly one audit event
is emitted — appended to the structured stream always, and to the durable
sink iff the file write succeeds, a write failure being caught internally —
with has_json true iff structured parsing produced a result, and with a
return value (the first component, which never mentions the sink outcome)
unchanged by a durable-sink failure; after a run_command that ends in
ExecutionFailed no audit event is emitted at all. -/
theorem C7_audit_on_success_only
    (env : Executor.Env) (file : Inventory.FileState) (device command : String)
    (inv inv' : Inventory.InvState) (st st1 : Session.PoolState)
    (log : Audit.AuditLog) (dev : Models.Device) (conn : Session.Conn)
    (hdev : Inventory.get_device file device env.user inv = .ok (some dev, inv'))
    (hok : readOnlyMatch command = true)
    (hacq : Session.acquire dev.hostname env.openErr st = .acquired conn st1) :
    (∀ raw, env.execOut conn.id command = .ok raw →
      (Executor.run_command env file device command inv st log).2.2.2
          = ⟨log.emitted ++
                [⟨env.user.username, device, command, raw.length,
                  (Parser.maybe_parse command raw dev.platform).isSome⟩],
              if env.sinkOk then
                log.durable ++
                  [⟨env.user.username, device, command, raw.length,
                    (Parser.maybe_parse command raw dev.platform).isSome⟩]
              else log.durable⟩
        ∧ ((Executor.run_command env file device command inv st log).2.2.2).emitted.length
            = log.emitted.length + 1
        ∧ (Executor.run_command env file device command inv st log).1
            = .ok ⟨raw, Parser.maybe_parse command raw dev.platform⟩)
    ∧ (∀ msg, env.execOut conn.id command = .error msg →
        (Executor.run_command env file device command inv st log).2.2.2 = log
          ∧ (Executor.run_command env file device command inv st log).1
              = .error (.commandExecutionError msg)) := by
  refine ⟨?_, ?_⟩
  · intro raw hexec
    rw [run_command_exec_ok env file device command inv inv' st st1 log dev conn raw
      hdev hok hacq hexec]
    refine ⟨?_, ?_, rfl⟩
    · cases hs : env.sinkOk <;> simp [Audit.record, hs]
    · cases hs : env.sinkOk <;> simp [Audit.record, hs]
  · intro msg hexec
    rw [run_command_exec_error env file device command inv inv' st st1 log dev conn msg
      hdev hok hacq hexec]
    exact ⟨rfl, rfl⟩

/-- Witness for C7_audit_on_success_only: a successful run against an empty
audit log leaves exactly one emitted event. -/
theorem C7_audit_on_success_only_witness :
    readOnlyMatch "show version" = true
    ∧ Session.acquire "r1" Fixtures.envOk.openErr Fixtures.st0
        = .acquired ⟨0, true⟩ Fixtures.st1c
    ∧ ((Executor.run_command Fixtures.envOk Fixtures.fileGood "r1" "show version"
          Fixtures.invEmpty Fixtures.st0 Fixtures.log0).2.2.2).emitted.length
        = Fixtures.log0.emitted.length + 1 :=
  ⟨rfl, rfl,
    ((C7_audit_on_success_only Fixtures.envOk Fixtures.fileGood "r1" "show version"
        Fixtures.invEmpty Fixtures.invLoaded Fixtures.st0 Fixtures.st1c Fixtures.log0
        Fixtures.devR1 ⟨0, true⟩ rfl rfl rfl).1 "all up" rfl).2.1⟩

/- Claim C8. -/

/- Whether a (changed) file fails the reload: the stat fails, the YAML parse
   raises, or some entry fails validation. -/
def reloadFails : Inventory.YamlContent → Prop
  | .missing => True
  | .syntaxError _ => True
  | .parsed raws => ∃ e, Inventory.buildInventoryGo [] raws = .error e

/-- Counterexample to C8 as stated: with the table holding r1 previously
loaded at mtime 1 and the backing file changed (mtime 2) to contain a
malformed device record, get_device for the still-cached r1 raises
InventoryLoadError to the caller instead of answering from the
last-known-good table. -/
theorem C8_counterexample :
    Fixtures.invLoaded.cache.lookup "r1" = some Fixtures.devR1
    ∧ Inventory.get_device Fixtures.fileBad "r1" Fixtures.userLab Fixtures.invLoaded
        = .error "Invalid device entry in inventory: Unsupported platform: junos" :=
  ⟨rfl, rfl⟩

/-- C8 (amended): when the backing file is newer than the cache and the
reload fails (missing file, YAML syntax error, or a malformed device
record), the whole reload fails and the cached last-known-good table is left
untouched — but the failing get_device or list_devices call itself surfaces
the InventoryLoadError to the caller rather than answering from the previous
table; the previous table keeps being served only by calls made while the
file is not newer than the cache. -/
theorem C8_reload_failure
    (file file2 : Inventory.FileState) (st : Inventory.InvState)
    (hstale : st.cacheMtime < file.mtime)
    (hfail : reloadFails file.content) :
    (∃ e, Inventory.load_yaml file st = .error e
      ∧ (∀ hn u, Inventory.get_device file hn u st = .error e)
      ∧ (∀ u, Inventory.list_devices file u st = .error e))
    ∧ (file2.content ≠ .missing → file2.mtime ≤ st.cacheMtime → st.cache ≠ [] →
        Inventory.load_yaml file2 st = .ok (st.cache, st)) := by
  constructor
  · obtain ⟨m1, c1⟩ := file
    have hnot : ¬(m1 ≤ st.cacheMtime ∧ st.cache ≠ []) := fun hand =>
      absurd hand.1 (not_le.mpr hstale)
    have hload : ∃ e, Inventory.load_yaml ⟨m1, c1⟩ st = .error e := by
      cases c1 with
      | missing => exact ⟨"Inventory file missing", rfl⟩
      | syntaxError m =>
        refine ⟨"YAML syntax error in inventory: " ++ m, ?_⟩
        unfold Inventory.load_yaml
        dsimp only
        rw [if_neg hnot]
      | parsed raws =>
        obtain ⟨e0, hb⟩ := hfail
        refine ⟨e0, ?_⟩
        unfold Inventory.load_yaml
        dsimp only
        rw [if_neg hnot, hb]
    obtain ⟨e, he⟩ := hload
    refine ⟨e, he, ?_, ?_⟩
    · intro hn u
      unfold Inventory.get_device
      rw [he]
    · intro u
      unfold Inventory.list_devices
      rw [he]
  · intro h2m h2f h2c
    obtain ⟨m2, c2⟩ := file2
    cases c2 with
    | missing => exact absurd rfl h2m
    | syntaxError m =>
      unfold Inventory.load_yaml
      dsimp only at h2f ⊢
      rw [if_pos ⟨h2f, h2c⟩]
    | parsed raws =>
      unfold Inventory.load_yaml
      dsimp only at h2f ⊢
      rw [if_pos ⟨h2f, h2c⟩]

/-- Witness for C8_reload_failure: the malformed reload fails while the
unchanged file keeps serving the cached table. -/
theorem C8_reload_failure_witness :
    Fixtures.invLoaded.cacheMtime < Fixtures.fileBad.mtime
    ∧ reloadFails Fixtures.fileBad.content
    ∧ Inventory.load_yaml Fixtures.fileGood Fixtures.invLoaded
        = .ok (Fixtures.invLoaded.cache, Fixtures.invLoaded) :=
  ⟨by decide,
   ⟨"Invalid device entry in inventory: Unsupported platform: junos", rfl⟩,
   (C8_reload_failure Fixtures.fileBad Fixtures.fileGood Fixtures.invLoaded (by decide)
      ⟨"Invalid device entry in inventory: Unsupported platform: junos", rfl⟩).2
      (by decide) (by decide) (by decide)⟩

/- Claim C9. -/

theorem splitWsMax_length_le (m : Nat) : ∀ l : List Char,
    (Parser.splitWsMax l m).length ≤ m + 1 := by
  induction m with
  | zero =>
    intro l
    simp [Parser.splitWsMax]
  | succ m ih =>
    intro l
    unfold Parser.splitWsMax
    dsimp only
    cases h : l.dropWhile (fun c => ! pySpace c) with
    | nil => simp
    | cons c rs =>
      simp only [List.length_cons]
      exact Nat.succ_le_succ (ih _)

theorem lineEntry_isSome (line : List Char) :
    (Parser.lineEntry line).isSome = Parser.qualifies line := by
  unfold Parser.lineEntry Parser.qualifies
  by_cases hb : (pyStrip line).isEmpty
  · simp [hb]
  · have hle := splitWsMax_length_le 5 line
    simp only [hb, if_false, Bool.not_false, Bool.true_and]
    rcases hps : Parser.splitWsMax line 5 with
        _ | ⟨a, _ | ⟨b, _ | ⟨c, _ | ⟨d, _ | ⟨e, _ | ⟨f, _ | ⟨g, t⟩⟩⟩⟩⟩⟩⟩ <;>
      rw [hps] at hle <;> simp_all

theorem findHeaderIdx_append (pre post : List (List Char)) (hdr : List Char)
    (hpre : ∀ l ∈ pre, Parser.headerMatch l = false)
    (hhdr : Parser.headerMatch hdr = true) :
    Parser.findHeaderIdx (pre ++ hdr :: post) = some pre.length := by
  induction pre with
  | nil => simp [Parser.findHeaderIdx, hhdr]
  | cons a rest ih =>
    have ha : Parser.headerMatch a = false := hpre a (List.mem_cons_self ..)
    have hrest : ∀ l ∈ rest, Parser.headerMatch l = false := fun l hl =>
      hpre l (List.mem_cons_of_mem _ hl)
    simp [Parser.findHeaderIdx, ha, ih hrest]

theorem findHeaderIdx_none (lines : List (List Char))
    (h : ∀ l ∈ lines, Parser.headerMatch l = false) :
    Parser.findHeaderIdx lines = none := by
  induction lines with
  | nil => rfl
  | cons a rest ih =>
    simp [Parser.findHeaderIdx, h a (List.mem_cons_self ..),
      ih (fun l hl => h l (List.mem_cons_of_mem _ hl))]

theorem length_filterMap_isSome (f : List Char → Option Parser.IntBriefEntry)
    (l : List (List Char)) :
    (l.filterMap f).length = (l.filter (fun x => (f x).isSome)).length := by
  induction l with
  | nil => rfl
  | cons a rest ih =>
    cases h : f a <;> simp [List.filterMap_cons, h, ih, List.filter_cons]

theorem parse_of_header (raw : String) (pre post : List (List Char)) (hdr : List Char)
    (hlines : Parser.splitlines raw = pre ++ hdr :: post)
    (hpre : ∀ l ∈ pre, Parser.headerMatch l = false)
    (hhdr : Parser.headerMatch hdr = true) :
    Parser.parse_show_ip_int_brief raw
      = .interfaces (post.filterMap Parser.lineEntry) := by
  have hdrop : (pre ++ hdr :: post).drop (pre.length + 1) = post := by
    rw [show pre ++ hdr :: post = (pre ++ [hdr]) ++ post by simp]
    rw [show pre.length + 1 = (pre ++ [hdr]).length by simp]
    exact List.drop_left _ _
  unfold Parser.parse_show_ip_int_brief
  dsimp only
  rw [hlines, findHeaderIdx_append pre post hdr hpre hhdr]
  dsimp only
  rw [hdrop]

/-- C9: for a command beginning (after trimming and lower-casing) with the
interface-status verb "show ip int brief", the parser locates the first
header line and returns one entry per subsequent line that is non-blank and
splits into at least six whitespace-delimited fields — the six parts filling
interface, ip_address, ok, method, status and protocol — while blank and
shorter lines are silently skipped; input with no header line yields the
empty result structure rather than an error; and every command with no
registered parser yields none.  All the embedded functions are total, so
nothing is thrown past the parser boundary. -/
theorem C9_parser_behaviour
    (command raw platform : String) (pre post : List (List Char)) (hdr : List Char)
    (hcmd : "show ip int brief".data.isPrefixOf (pyLower (pyStrip command.data)) = true)
    (hlines : Parser.splitlines raw = pre ++ hdr :: post)
    (hpre : ∀ l ∈ pre, Parser.headerMatch l = false)
    (hhdr : Parser.headerMatch hdr = true) :
    Parser.maybe_parse command raw platform
        = some (.interfaces (post.filterMap Parser.lineEntry))
    ∧ (post.filterMap Parser.lineEntry).length = (post.filter Parser.qualifies).length
    ∧ (∀ line, (Parser.lineEntry line).isSome = Parser.qualifies line)
    ∧ (∀ line p0 p1 p2 p3 p4 p5, (pyStrip line).isEmpty = false →
        Parser.splitWsMax line 5 = [p0, p1, p2, p3, p4, p5] →
        Parser.lineEntry line = some ⟨String.mk p0, String.mk p1, String.mk p2,
          String.mk p3, String.mk p4, String.mk p5⟩)
    ∧ (∀ cmd2 raw2 pf2 : String,
        "show ip int brief".data.isPrefixOf (pyLower (pyStrip cmd2.data)) = false →
        Parser.maybe_parse cmd2 raw2 pf2 = none)
    ∧ (∀ raw2 : String, (∀ l ∈ Parser.splitlines raw2, Parser.headerMatch l = false) →
        Parser.parse_show_ip_int_brief raw2 = .emptyDict) := by
  refine ⟨?_, ?_, lineEntry_isSome, ?_, ?_, ?_⟩
  · unfold Parser.maybe_parse
    dsimp only
    rw [hcmd, if_pos rfl, parse_of_header raw pre post hdr hlines hpre hhdr]
  · rw [length_filterMap_isSome]
    simp only [lineEntry_isSome]
  · intro line p0 p1 p2 p3 p4 p5 h1 h2
    simp [Parser.lineEntry, h1, h2]
  · intro cmd2 raw2 pf2 hfalse
    unfold Parser.maybe_parse
    dsimp only
    rw [hfalse]
    rfl
  · intro raw2 hno
    unfold Parser.parse_show_ip_int_brief
    dsimp only
    rw [findHeaderIdx_none _ hno]

/- Concrete interface-brief block for the C9 witness: one preamble line, the
   header, two data rows, one blank line and one short line. -/

def Fixtures.hdrW : List Char :=
  "Interface IP-Address OK? Method Status Protocol".data

def Fixtures.preW : List (List Char) := ["r1# show ip int brief".data]

def Fixtures.postW : List (List Char) :=
  ["Gi1 10.0.0.1 YES NVRAM up up".data, [], "short line".data,
   "Gi2 unassigned YES unset administratively down down".data]

def Fixtures.rawBlock : String :=
  "r1# show ip int brief\nInterface IP-Address OK? Method Status Protocol\nGi1 10.0.0.1 YES NVRAM up up\n\nshort line\nGi2 unassigned YES unset administratively down down"

/-- Witness for C9_parser_behaviour: the reference block parses to one entry
per data row (two rows; the blank and the short line are skipped). -/
theorem C9_parser_behaviour_witness :
    Parser.splitlines Fixtures.rawBlock
        = Fixtures.preW ++ Fixtures.hdrW :: Fixtures.postW
    ∧ Parser.headerMatch Fixtures.hdrW = true
    ∧ Parser.maybe_parse "show ip int brief" Fixtures.rawBlock "iosxe"
        = some (.interfaces (Fixtures.postW.filterMap Parser.lineEntry))
    ∧ (Fixtures.postW.filterMap Parser.lineEntry).length = 2 :=
  ⟨rfl, rfl,
    (C9_parser_behaviour "show ip int brief" Fixtures.rawBlock "iosxe" Fixtures.preW
        Fixtures.postW Fixtures.hdrW rfl rfl (by decide) rfl).1,
    rfl⟩

/- Claim C10. -/

/-- C10: inventory validation accepts platform asa (its netmiko map carries a
cisco_asa entry and a concrete asa record validates), but the session
module's Scrapli driver map has no asa key, so for every device whose
lower-cased platform is outside ios/iosxe/nxos/iosxr — asa included — _open
raises the unsupported-platform error before any transport attempt: the
result is identical under every possible network oracle, so no attempt
outcome is even consulted. -/
theorem C10_unsupported_platform
    (d : Session.SessionDevice)
    (hun : Session.scrapliDriver d.platform = none) :
    (∀ oracle, Session.openConn d oracle
        = .unsupportedPlatform ("Unsupported platform for Scrapli: " ++ d.platform))
    ∧ (∀ oracle oracle2 : Session.Transport → Nat → Session.AttemptOutcome,
        Session.openConn d oracle = Session.openConn d oracle2)
    ∧ (∀ p : String, Session.scrapliDriver p = none ↔
        strLower p ∉ (["ios", "iosxe", "nxos", "iosxr"] : List String))
    ∧ Models.netmiko_driver "asa" = some "cisco_asa"
    ∧ Session.scrapliDriver "asa" = none
    ∧ Models.model_validate Fixtures.rawAsa
        = .ok ⟨"fw1", "10.0.0.5", "asa", "u", "p", [], none⟩ := by
  refine ⟨?_, ?_, ?_, rfl, rfl, rfl⟩
  · intro oracle
    simp [Session.openConn, hun]
  · intro oracle oracle2
    simp [Session.openConn, hun]
  · intro p
    unfold Session.scrapliDriver Session.DRIVER_MAP
    cases hb1 : strLower p == "ios" <;> cases hb2 : strLower p == "iosxe" <;>
      cases hb3 : strLower p == "nxos" <;> cases hb4 : strLower p == "iosxr" <;>
        simp [List.lookup, hb1, hb2, hb3, hb4] <;> simp_all

/- The asa device as the session layer sees it. -/
def Fixtures.dAsa : Session.SessionDevice :=
  Session.toSessionDevice ⟨"fw1", "10.0.0.5", "asa", "u", "p", [], none⟩

/-- Witness for C10_unsupported_platform at the asa device accepted by
inventory validation. -/
theorem C10_unsupported_platform_witness :
    Session.scrapliDriver Fixtures.dAsa.platform = none
    ∧ (∀ oracle, Session.openConn Fixtures.dAsa oracle
        = .unsupportedPlatform "Unsupported platform for Scrapli: asa") :=
  ⟨rfl, (C10_unsupported_platform Fixtures.dAsa rfl).1⟩

end McpGateway
